import Mathlib

/-
Verification development for the daebus-client streaming (WebSocket) core,
src/src/websocket/client.ts (class DaebusWebSocketClient).

The client is shallowly embedded as a pure transition system:
- ClientState holds the mutable fields of the class (ws readiness, the
  isConnecting and isReconnecting flags, reconnectAttempts, the pending
  request map, requestCounter, subscribedChannels, plus two booleans that
  make the implicit timer and promise-catch wiring explicit).
- Each method becomes a function ClientState -> ClientState x List Effect;
  Effect records the externally observable actions (frames sent over the
  socket, promise resolutions and rejections, emitted events, handle
  creation and closure, timers armed).
- step dispatches an Event (an API call, a transport event, a timer firing,
  or an inbound frame) to the corresponding function; run folds a list of
  events from the initial state.

Modelling conventions, each justified against the source:
- A request id req_X_Y (X = Date.now(), Y = the incremented requestCounter)
  is modelled as the pair (X, Y) : Nat x Nat; the rendering
  "req_" ++ X ++ "_" ++ Y is injective on such pairs since decimal numerals
  contain no underscore, so the pair is a faithful stand-in for the string.
- The per-request setTimeout handle is not stored: in the source a request
  timer is armed exactly when its id is inserted in pendingRequests and
  cleared (clearTimeout) exactly when the id is removed, so timer-is-armed
  coincides with map membership and the requestTimerFire event is a no-op
  for an id that is not pending.
- JSON.parse failure is modelled by handleMessage receiving none; the
  DaebusError text which interpolates the caught exception is abstracted to
  a fixed string, and likewise the timeout error text which interpolates
  the action name.
- Promise settlement of a connect() call is recorded by the effects
  connectResolved / connectRejected / connectReturnedImmediately; the last
  one marks the early return (an already-resolved promise) taken when
  isConnecting is set or the socket is already open.
- The .catch attached to connect() inside scheduleReconnect runs when that
  connect attempt fails; reconnectCatchArmed records that such a catch is
  waiting, and the error handler runs it (emit the connection error, then
  scheduleReconnect again).
-/

namespace Daebus

/-- Truthiness-relevant fragment of a JSON value (the payload alphabet). -/
inductive JVal where
  | jnull
  | jbool (b : Bool)
  | jnum (n : Int)
  | jstr (s : String)
  | jobj (tag : Nat)
  deriving DecidableEq, Repr

/-- JavaScript truthiness of a JSON value: null, false, 0 and the empty
string are falsy; objects and arrays (jobj) are always truthy. -/
def JVal.truthy : JVal → Bool
  | .jnull => false
  | .jbool b => b
  | .jnum n => n != 0
  | .jstr s => s != ""
  | .jobj _ => true

/-- Correlation id: the pair (Date.now() value, incremented requestCounter)
rendered in the source as the string req_X_Y. -/
abbrev RequestId := Nat × Nat

/-- String rendering of a request id, as produced by generateRequestId. -/
def reqIdStr (id : RequestId) : String :=
  "req_" ++ toString id.1 ++ "_" ++ toString id.2

/-- Error taxonomy of src/src/types: DaebusError (protocol-level),
DaebusTimeoutError, DaebusConnectionError; plainErr stands for a non-Daebus
Error object such as a raw socket error. -/
inductive DaebusErr where
  | daebus (msg : String)
  | timeout (msg : String)
  | connection (msg : String)
  | plainErr (msg : String)
  deriving DecidableEq, Repr

/-- Action envelope transmitted as the data of a publish frame
(sendAction builds it). -/
structure DaebusMessage where
  action : String
  payload : JVal
  reply_channel : String
  request_id : RequestId
  timestamp : Nat
  deriving DecidableEq, Repr

/-- Outbound wire frames the client serializes with JSON.stringify. -/
inductive Frame where
  | subscribe (channel : String)
  | unsubscribe (channel : String)
  | publish (channel : String) (data : DaebusMessage)
  | broadcast (channel : String) (data : JVal)
  deriving DecidableEq, Repr

/-- A successfully parsed inbound frame; each field is none when the JSON
object lacks it (JS undefined). -/
structure InMessage where
  type : Option String
  channel : Option String
  data : Option JVal
  request_id : Option RequestId
  success : Option Bool
  error : Option String
  deriving DecidableEq, Repr

/-- Observable actions a method performs besides mutating the state. -/
inductive Effect where
  | createHandle (url : String)
  | wsCloseCall (code : Nat) (reason : String)
  | sendFrame (f : Frame)
  | emitConnect
  | emitDisconnect (code : Nat)
  | emitError (e : DaebusErr)
  | emitChannel (channel : Option String) (data : Option JVal)
  | emitMessage (m : InMessage)
  | resolveReq (id : RequestId) (data : Option JVal)
  | rejectReq (id : RequestId) (e : DaebusErr)
  | connectResolved
  | connectRejected (e : DaebusErr)
  | connectReturnedImmediately
  | opThrew (e : DaebusErr)
  | setReconnectTimer (delay : Nat)
  deriving DecidableEq, Repr

/-- ws readyState values the client inspects. -/
inductive ReadyState where
  | connecting
  | opened
  | closed
  deriving DecidableEq, Repr

/-- WebSocketClientOptions (url, reconnectInterval, maxReconnectAttempts,
timeout); optional fields are none when omitted. -/
structure WebSocketClientOptions where
  url : String
  reconnectInterval : Option Nat := none
  maxReconnectAttempts : Option Nat := none
  timeout : Option Nat := none
  deriving DecidableEq, Repr

/-- The private mutable fields of DaebusWebSocketClient. ws is the current
transport handle readiness (none while the field is null); pendingRequests
is the key list of the pending map; reconnectTimerSet records that the
setTimeout of scheduleReconnect is armed; reconnectCatchArmed records that
a connect() launched by that timer has its .catch still waiting. -/
structure ClientState where
  options : WebSocketClientOptions
  ws : Option ReadyState
  reconnectAttempts : Nat
  isConnecting : Bool
  isReconnecting : Bool
  pendingRequests : List RequestId
  requestCounter : Nat
  subscribedChannels : List String
  reconnectTimerSet : Bool
  reconnectCatchArmed : Bool
  deriving DecidableEq, Repr

/-- Map.has on the pending map keys. -/
def mapHas (m : List RequestId) (id : RequestId) : Bool := m.contains id

/-- Map.delete on the pending map keys. -/
def mapDelete (m : List RequestId) (id : RequestId) : List RequestId := m.erase id

/-- Map.set on the pending map keys (overwriting an existing key leaves the
key set unchanged). -/
def mapSet (m : List RequestId) (id : RequestId) : List RequestId :=
  if m.contains id then m else m ++ [id]

/-- Set.add on subscribedChannels. -/
def setAdd (l : List String) (c : String) : List String :=
  if l.contains c then l else l ++ [c]

/-- isConnected(): ws non-null and readyState OPEN. -/
def isConnected (s : ClientState) : Bool := s.ws = some .opened

/-- generateRequestId(): req_ Date.now() _ ++requestCounter, as a pair. -/
def generateRequestId (now counter : Nat) : RequestId := (now, counter)

/-- The JS expression (response.error or the fallback string): a missing or
empty error text falls back to "Unknown error". -/
def orUnknown : Option String → String
  | some e => if e = "" then "Unknown error" else e
  | none => "Unknown error"

/-- handleResponse: look the correlation id up in the pending map; on a hit
delete the entry and settle the promise (reject a DaebusError when the
success flag is literally false, resolve with the data field otherwise);
on a miss do nothing. -/
def handleResponse (s : ClientState) (response : InMessage) :
    ClientState × List Effect :=
  match response.request_id with
  | none => (s, [])
  | some requestId =>
    if mapHas s.pendingRequests requestId then
      let s' := { s with pendingRequests := mapDelete s.pendingRequests requestId }
      if response.success = some false then
        (s', [Effect.rejectReq requestId (.daebus (orUnknown response.error))])
      else
        (s', [Effect.resolveReq requestId response.data])
    else (s, [])

/-- handleChannelMessage: emit the channel event with the data field. -/
def handleChannelMessage (s : ClientState) (message : InMessage) :
    ClientState × List Effect :=
  (s, [Effect.emitChannel message.channel message.data])

/-- Truthiness of a possibly missing string field. -/
def truthyStr : Option String → Bool
  | some c => c != ""
  | none => false

/-- Truthiness of a possibly missing JSON field. -/
def truthyVal : Option JVal → Bool
  | some v => v.truthy
  | none => false

/-- handleMessage: parse (none = JSON.parse threw, caught and reported as a
diagnostic error event), then classify: type response, type
channel_message, truthy channel and data, pending request_id, else a
generic message event. -/
def handleMessage (s : ClientState) (parsed : Option InMessage) :
    ClientState × List Effect :=
  match parsed with
  | none => (s, [Effect.emitError (.daebus "Failed to parse message")])
  | some message =>
    if message.type = some "response" then
      handleResponse s message
    else if message.type = some "channel_message" then
      handleChannelMessage s message
    else if truthyStr message.channel && truthyVal message.data then
      (s, [Effect.emitChannel message.channel message.data])
    else
      match message.request_id with
      | some rid =>
        if mapHas s.pendingRequests rid then handleResponse s message
        else (s, [Effect.emitMessage message])
      | none => (s, [Effect.emitMessage message])

/-- connect(): early return (already-resolved promise) when isConnecting or
the socket is open; otherwise construct a new WebSocket (readyState
CONNECTING) with isConnecting set. armCatch is true for the call made by
the reconnect timer, whose .catch is then waiting on the new attempt. -/
def connectStep (s : ClientState) (armCatch : Bool) : ClientState × List Effect :=
  if s.isConnecting || isConnected s then
    (s, [Effect.connectReturnedImmediately])
  else
    ({ s with isConnecting := true, ws := some .connecting,
              reconnectCatchArmed := armCatch },
     [Effect.createHandle s.options.url])

/-- disconnect(): close the handle with code 1000 and null it, then reject
every pending request with DaebusConnectionError and clear the map. The
reconnect timer flag and isReconnecting are untouched, as in the source. -/
def disconnect (s : ClientState) : ClientState × List Effect :=
  let closeEffs :=
    if s.ws.isSome then [Effect.wsCloseCall 1000 "Client disconnect"] else []
  let rejEffs := s.pendingRequests.map
    (fun id => Effect.rejectReq id (.connection "Connection closed"))
  ({ s with ws := none, pendingRequests := [] }, closeEffs ++ rejEffs)

/-- sendAction: fail fast when not connected; otherwise generate a fresh
correlation id, register it pending (its timeout timer armed), and publish
the action envelope to the service channel. -/
def sendAction (s : ClientState) (serviceName action : String) (payload : JVal)
    (now : Nat) : ClientState × List Effect :=
  if !(isConnected s) then
    (s, [Effect.opThrew (.connection "WebSocket is not connected")])
  else
    let counter := s.requestCounter + 1
    let requestId := generateRequestId now counter
    let msg : DaebusMessage :=
      { action := action, payload := payload,
        reply_channel := "reply_" ++ reqIdStr requestId,
        request_id := requestId, timestamp := now }
    ({ s with requestCounter := counter,
              pendingRequests := mapSet s.pendingRequests requestId },
     [Effect.sendFrame (.publish serviceName msg)])

/-- subscribeToChannel: fail fast when not connected; otherwise add the
channel to the desired-active set and transmit a subscribe frame (the
handler registration on the emitter is not part of the modelled state). -/
def subscribeToChannel (s : ClientState) (channel : String) :
    ClientState × List Effect :=
  if !(isConnected s) then
    (s, [Effect.opThrew (.connection "WebSocket is not connected")])
  else
    ({ s with subscribedChannels := setAdd s.subscribedChannels channel },
     [Effect.sendFrame (.subscribe channel)])

/-- unsubscribeFromChannel: always remove the channel from the
desired-active set; transmit an unsubscribe frame only when connected. -/
def unsubscribeFromChannel (s : ClientState) (channel : String) :
    ClientState × List Effect :=
  let s' := { s with subscribedChannels := s.subscribedChannels.erase channel }
  if isConnected s' then (s', [Effect.sendFrame (.unsubscribe channel)])
  else (s', [])

/-- broadcast: fail fast when not connected; otherwise transmit a broadcast
frame. -/
def broadcastOp (s : ClientState) (channel : String) (data : JVal) :
    ClientState × List Effect :=
  if !(isConnected s) then
    (s, [Effect.opThrew (.connection "WebSocket is not connected")])
  else
    (s, [Effect.sendFrame (.broadcast channel data)])

/-- resubscribeToChannels: retransmit one subscribe frame per channel of the
desired-active set. -/
def resubscribeToChannels (s : ClientState) : List Effect :=
  s.subscribedChannels.map (fun c => Effect.sendFrame (.subscribe c))

/-- maxReconnectAttempts with its default of 5. -/
def WebSocketClientOptions.maxAttempts (o : WebSocketClientOptions) : Nat :=
  o.maxReconnectAttempts.getD 5

/-- scheduleReconnect: when the attempt counter has reached the maximum,
emit a terminal connection error and stop; otherwise set isReconnecting,
increment the counter and arm the reconnect timer. -/
def scheduleReconnect (s : ClientState) : ClientState × List Effect :=
  if s.options.maxAttempts ≤ s.reconnectAttempts then
    (s, [Effect.emitError (.connection "Max reconnection attempts exceeded")])
  else
    ({ s with isReconnecting := true,
              reconnectAttempts := s.reconnectAttempts + 1,
              reconnectTimerSet := true },
     [Effect.setReconnectTimer (s.options.reconnectInterval.getD 5000)])

/-- The open event of the current socket (fires while it is CONNECTING):
clear isConnecting, reset the attempt counter, emit connect, resubscribe
and clear isReconnecting when a reconnect was in progress, then resolve the
connect promise. -/
def onOpen (s : ClientState) : ClientState × List Effect :=
  match s.ws with
  | some .connecting =>
    let s1 := { s with ws := some .opened, isConnecting := false,
                       reconnectAttempts := 0, reconnectCatchArmed := false }
    if s1.isReconnecting then
      ({ s1 with isReconnecting := false },
       Effect.emitConnect :: resubscribeToChannels s1 ++ [Effect.connectResolved])
    else
      (s1, [Effect.emitConnect, Effect.connectResolved])
  | _ => (s, [])

/-- The close event of the current socket: clear isConnecting, emit
disconnect, and on an abnormal code while not already reconnecting call
scheduleReconnect. -/
def onClose (s : ClientState) (code : Nat) : ClientState × List Effect :=
  match s.ws with
  | none => (s, [])
  | some .closed => (s, [])
  | some _ =>
    let s1 := { s with ws := some .closed, isConnecting := false }
    if code ≠ 1000 && !s1.isReconnecting then
      let r := scheduleReconnect s1
      (r.1, Effect.emitDisconnect code :: r.2)
    else
      (s1, [Effect.emitDisconnect code])

/-- The error event of the current socket: clear isConnecting, emit the raw
error, reject the connect promise with a DaebusConnectionError; when the
attempt was launched by the reconnect timer its .catch then emits that
error and calls scheduleReconnect again. -/
def onError (s : ClientState) (msg : String) : ClientState × List Effect :=
  match s.ws with
  | none => (s, [])
  | some _ =>
    let connErr := DaebusErr.connection ("WebSocket connection failed: " ++ msg)
    let s1 := { s with isConnecting := false }
    let base := [Effect.emitError (.plainErr msg), Effect.connectRejected connErr]
    if s1.reconnectCatchArmed then
      let s2 := { s1 with reconnectCatchArmed := false }
      let r := scheduleReconnect s2
      (r.1, base ++ [Effect.emitError connErr] ++ r.2)
    else
      (s1, base)

/-- The firing of the per-request timeout timer: armed exactly while the id
is pending; delete the entry and reject with DaebusTimeoutError. -/
def requestTimerFire (s : ClientState) (id : RequestId) :
    ClientState × List Effect :=
  if mapHas s.pendingRequests id then
    ({ s with pendingRequests := mapDelete s.pendingRequests id },
     [Effect.rejectReq id (.timeout "Action timed out")])
  else (s, [])

/-- The firing of the scheduleReconnect timer: when isReconnecting is still
set, call connect() with its .catch armed. -/
def reconnectTimerFire (s : ClientState) : ClientState × List Effect :=
  if s.reconnectTimerSet then
    let s1 := { s with reconnectTimerSet := false }
    if s1.isReconnecting then connectStep s1 true
    else (s1, [])
  else (s, [])

/-- External stimuli: public API calls, transport events on the current
socket, inbound frames (already parsed, none on parse failure), and timer
firings. -/
inductive Event where
  | callConnect
  | callDisconnect
  | callSendAction (serviceName action : String) (payload : JVal) (now : Nat)
  | callSubscribe (channel : String)
  | callUnsubscribe (channel : String)
  | callBroadcast (channel : String) (data : JVal)
  | wsOpenEvt
  | wsCloseEvt (code : Nat)
  | wsErrorEvt (msg : String)
  | recvMessage (parsed : Option InMessage)
  | requestTimer (id : RequestId)
  | reconnectTimer
  deriving DecidableEq, Repr

/-- One transition of the client. -/
def step (s : ClientState) : Event → ClientState × List Effect
  | .callConnect => connectStep s false
  | .callDisconnect => disconnect s
  | .callSendAction svc act payload now => sendAction s svc act payload now
  | .callSubscribe c => subscribeToChannel s c
  | .callUnsubscribe c => unsubscribeFromChannel s c
  | .callBroadcast c d => broadcastOp s c d
  | .wsOpenEvt => onOpen s
  | .wsCloseEvt code => onClose s code
  | .wsErrorEvt msg => onError s msg
  | .recvMessage p => handleMessage s p
  | .requestTimer id => requestTimerFire s id
  | .reconnectTimer => reconnectTimerFire s

/-- The state of a freshly constructed client. -/
def initState (opts : WebSocketClientOptions) : ClientState :=
  { options := opts, ws := none, reconnectAttempts := 0, isConnecting := false,
    isReconnecting := false, pendingRequests := [], requestCounter := 0,
    subscribedChannels := [], reconnectTimerSet := false,
    reconnectCatchArmed := false }

/-- Run a list of events, collecting the final state and the concatenated
effect history. -/
def run (s : ClientState) : List Event → ClientState × List Effect
  | [] => (s, [])
  | e :: evs =>
    ((run (step s e).1 evs).1, (step s e).2 ++ (run (step s e).1 evs).2)

/-- An effect that settles the pending request with the given id. -/
def isSettle (id : RequestId) : Effect → Bool
  | .resolveReq i _ => i == id
  | .rejectReq i _ => i == id
  | _ => false

/-- Number of settlements of a given id in an effect history. -/
def settleCount (id : RequestId) (effs : List Effect) : Nat :=
  effs.countP (isSettle id)

/-- The channel of a retransmitted subscribe frame, if the effect is one. -/
def subChanOfEffect : Effect → Option String
  | .sendFrame (.subscribe c) => some c
  | _ => none

/-- Correlator invariant carried along every run: pending ids are pairwise
distinct, bounded by the monotone requestCounter, and unsettled; every id
is settled at most once in the whole history; every settled id is bounded
by the counter (so a fresh id can never collide with a settled one). -/
def Inv (s : ClientState) (hist : List Effect) : Prop :=
  s.pendingRequests.Nodup
  ∧ (∀ id ∈ s.pendingRequests, id.2 ≤ s.requestCounter)
  ∧ (∀ id ∈ s.pendingRequests, settleCount id hist = 0)
  ∧ (∀ id : RequestId, settleCount id hist ≤ 1)
  ∧ (∀ id : RequestId, 1 ≤ settleCount id hist → id.2 ≤ s.requestCounter)

lemma settleCount_append (id : RequestId) (l₁ l₂ : List Effect) :
    settleCount id (l₁ ++ l₂) = settleCount id l₁ + settleCount id l₂ :=
  List.countP_append _ _ _

lemma contains_iff_mem (l : List RequestId) (id : RequestId) :
    l.contains id = true ↔ id ∈ l := List.elem_iff

/-- Settlement count over the batch of rejections disconnect emits: on a
duplicate-free key list, each id present is settled exactly once. -/
lemma settleCount_rejectMap (err : DaebusErr) (id : RequestId) :
    ∀ (l : List RequestId), l.Nodup →
      settleCount id (l.map (fun i => Effect.rejectReq i err))
        = if id ∈ l then 1 else 0
  | [], _ => by simp [settleCount]
  | a :: t, hd => by
    have ha := (List.nodup_cons.mp hd).1
    have IH := settleCount_rejectMap err id t (List.nodup_cons.mp hd).2
    simp only [List.map_cons, settleCount, List.countP_cons, isSettle] at IH ⊢
    by_cases h : id = a
    · subst h
      simp [IH, ha]
    · have hne : (a == id) = false := by
        simp only [beq_eq_false_iff_ne, ne_eq]
        exact fun hh => h hh.symm
      simp [IH, hne, List.mem_cons, h]

lemma settleCount_single_reject (rid id : RequestId) (e : DaebusErr) :
    settleCount id [Effect.rejectReq rid e] = if id = rid then 1 else 0 := by
  simp only [settleCount, List.countP_cons, List.countP_nil, isSettle,
    Nat.zero_add]
  by_cases h : id = rid
  · subst h; simp
  · have hne : (rid == id) = false := by
      simp only [beq_eq_false_iff_ne, ne_eq]
      exact fun hh => h hh.symm
    simp [hne, h]

lemma settleCount_single_resolve (rid id : RequestId) (d : Option JVal) :
    settleCount id [Effect.resolveReq rid d] = if id = rid then 1 else 0 := by
  simp only [settleCount, List.countP_cons, List.countP_nil, isSettle,
    Nat.zero_add]
  by_cases h : id = rid
  · subst h; simp
  · have hne : (rid == id) = false := by
      simp only [beq_eq_false_iff_ne, ne_eq]
      exact fun hh => h hh.symm
    simp [hne, h]

lemma settleCount_subs (id : RequestId) (l : List String) :
    settleCount id (l.map (fun c => Effect.sendFrame (.subscribe c))) = 0 := by
  unfold settleCount
  apply List.countP_eq_zero.mpr
  intro a ha
  simp only [List.mem_map] at ha
  obtain ⟨c, _, rfl⟩ := ha
  simp [isSettle]

/-- Invariant extension for a step that settles nothing, keeps the pending
map and does not decrease the counter. -/
lemma inv_nosettle {s : ClientState} {hist : List Effect} (h : Inv s hist)
    {s' : ClientState} {effs : List Effect}
    (hp : s'.pendingRequests = s.pendingRequests)
    (hc : s.requestCounter ≤ s'.requestCounter)
    (he : ∀ id, settleCount id effs = 0) :
    Inv s' (hist ++ effs) := by
  obtain ⟨h1, h2, h3, h4, h5⟩ := h
  refine ⟨hp ▸ h1, ?_, ?_, ?_, ?_⟩
  · intro id hm
    exact le_trans (h2 id (hp ▸ hm)) hc
  · intro id hm
    rw [settleCount_append, he, h3 id (hp ▸ hm)]
  · intro id
    rw [settleCount_append, he]
    simpa using h4 id
  · intro id hh
    rw [settleCount_append, he] at hh
    exact le_trans (h5 id (by simpa using hh)) hc

/-- Invariant extension for a step that settles exactly one pending id and
erases it from the map. -/
lemma inv_settle_one {s : ClientState} {hist : List Effect} (h : Inv s hist)
    {s' : ClientState} {effs : List Effect} {id0 : RequestId}
    (hmem : id0 ∈ s.pendingRequests)
    (hp : s'.pendingRequests = s.pendingRequests.erase id0)
    (hc : s'.requestCounter = s.requestCounter)
    (he : ∀ id, settleCount id effs = if id = id0 then 1 else 0) :
    Inv s' (hist ++ effs) := by
  obtain ⟨h1, h2, h3, h4, h5⟩ := h
  refine ⟨?_, ?_, ?_, ?_, ?_⟩
  · rw [hp]; exact h1.erase id0
  · intro id hm
    rw [hc]
    exact h2 id (List.mem_of_mem_erase (hp ▸ hm))
  · intro id hm
    rw [hp] at hm
    obtain ⟨hne, hmem'⟩ := (h1.mem_erase_iff).mp hm
    rw [settleCount_append, he, if_neg hne, h3 id hmem']
  · intro id
    rw [settleCount_append, he]
    by_cases hid : id = id0
    · rw [if_pos hid, hid, h3 id0 hmem]
    · rw [if_neg hid]
      simpa using h4 id
  · intro id hh
    rw [settleCount_append, he] at hh
    rw [hc]
    by_cases hid : id = id0
    · rw [hid]; exact h2 id0 hmem
    · rw [if_neg hid] at hh
      exact h5 id (by simpa using hh)

/-- Invariant extension for disconnect: the map is cleared and each pending
id is settled exactly once. -/
lemma inv_clear {s : ClientState} {hist : List Effect} (h : Inv s hist)
    {s' : ClientState} {effs : List Effect}
    (hp : s'.pendingRequests = [])
    (hc : s'.requestCounter = s.requestCounter)
    (he : ∀ id, settleCount id effs
        = if id ∈ s.pendingRequests then 1 else 0) :
    Inv s' (hist ++ effs) := by
  obtain ⟨h1, h2, h3, h4, h5⟩ := h
  refine ⟨by rw [hp]; exact List.nodup_nil, ?_, ?_, ?_, ?_⟩
  · intro id hm
    rw [hp] at hm
    exact absurd hm (List.not_mem_nil id)
  · intro id hm
    rw [hp] at hm
    exact absurd hm (List.not_mem_nil id)
  · intro id
    rw [settleCount_append, he]
    by_cases hm : id ∈ s.pendingRequests
    · rw [h3 id hm, if_pos hm]
    · rw [if_neg hm]
      simpa using h4 id
  · intro id hh
    rw [settleCount_append, he] at hh
    rw [hc]
    by_cases hm : id ∈ s.pendingRequests
    · exact h2 id hm
    · rw [if_neg hm] at hh
      exact h5 id (by simpa using hh)

/-- A freshly generated id is absent from the pending map. -/
lemma mapSet_fresh {s : ClientState}
    (h2 : ∀ id ∈ s.pendingRequests, id.2 ≤ s.requestCounter) (now : Nat) :
    mapSet s.pendingRequests (now, s.requestCounter + 1)
      = s.pendingRequests ++ [(now, s.requestCounter + 1)] := by
  unfold mapSet
  rw [if_neg]
  intro hcon
  have hb := h2 _ ((contains_iff_mem _ _).mp hcon)
  omega

/-- Invariant extension for sendAction: a fresh id is appended and the
counter incremented. -/
lemma inv_fresh {s : ClientState} {hist : List Effect} (h : Inv s hist)
    {s' : ClientState} {effs : List Effect} {now : Nat}
    (hp : s'.pendingRequests
        = s.pendingRequests ++ [(now, s.requestCounter + 1)])
    (hc : s'.requestCounter = s.requestCounter + 1)
    (he : ∀ id, settleCount id effs = 0) :
    Inv s' (hist ++ effs) := by
  obtain ⟨h1, h2, h3, h4, h5⟩ := h
  have hnotmem : (now, s.requestCounter + 1) ∉ s.pendingRequests := by
    intro hm
    have := h2 _ hm
    omega
  refine ⟨?_, ?_, ?_, ?_, ?_⟩
  · rw [hp, List.nodup_append]
    exact ⟨h1, List.nodup_singleton _, by
      intro a ha hb
      rw [List.mem_singleton] at hb
      exact hnotmem (hb ▸ ha)⟩
  · intro id hm
    rw [hp, List.mem_append] at hm
    rw [hc]
    rcases hm with hm | hm
    · exact le_trans (h2 id hm) (Nat.le_succ _)
    · rw [List.mem_singleton] at hm
      rw [hm]
  · intro id hm
    rw [settleCount_append, he]
    rw [hp, List.mem_append] at hm
    rcases hm with hm | hm
    · rw [h3 id hm]
    · rw [List.mem_singleton] at hm
      rcases Nat.eq_zero_or_pos (settleCount id hist) with h0 | h0
      · rw [h0]
      · have := h5 id h0
        rw [hm] at this
        omega
  · intro id
    rw [settleCount_append, he]
    simpa using h4 id
  · intro id hh
    rw [settleCount_append, he] at hh
    rw [hc]
    exact le_trans (h5 id (by simpa using hh)) (Nat.le_succ _)

/-- Equation: handleResponse with no correlation id does nothing. -/
lemma handleResponse_none {s : ClientState} {m : InMessage}
    (h : m.request_id = none) : handleResponse s m = (s, []) := by
  unfold handleResponse
  rw [h]

/-- Equation: handleResponse with an id absent from the pending map does
nothing (the late or stale response is dropped silently). -/
lemma handleResponse_miss {s : ClientState} {m : InMessage} {rid : RequestId}
    (h : m.request_id = some rid)
    (hh : mapHas s.pendingRequests rid = false) :
    handleResponse s m = (s, []) := by
  unfold handleResponse
  rw [h]
  simp [hh]

/-- Equation: handleResponse on a pending id with the success flag not
literally false removes the entry and resolves with the data field. -/
lemma handleResponse_hit_ok {s : ClientState} {m : InMessage}
    {rid : RequestId} (h : m.request_id = some rid)
    (hh : mapHas s.pendingRequests rid = true) (hs : m.success ≠ some false) :
    handleResponse s m
      = ({ s with pendingRequests := mapDelete s.pendingRequests rid },
         [Effect.resolveReq rid m.data]) := by
  unfold handleResponse
  rw [h]
  simp [hh, hs]

/-- Equation: handleResponse on a pending id with success false removes the
entry and rejects with a DaebusError carrying the remote error text. -/
lemma handleResponse_hit_err {s : ClientState} {m : InMessage}
    {rid : RequestId} (h : m.request_id = some rid)
    (hh : mapHas s.pendingRequests rid = true) (hs : m.success = some false) :
    handleResponse s m
      = ({ s with pendingRequests := mapDelete s.pendingRequests rid },
         [Effect.rejectReq rid (.daebus (orUnknown m.error))]) := by
  unfold handleResponse
  rw [h]
  simp [hh, hs]

/-- handleResponse preserves the correlator invariant. -/
lemma inv_handleResponse {s : ClientState} {hist : List Effect}
    (h : Inv s hist) (m : InMessage) :
    Inv (handleResponse s m).1 (hist ++ (handleResponse s m).2) := by
  rcases hrid : m.request_id with _ | rid
  · rw [handleResponse_none hrid]
    exact inv_nosettle h rfl le_rfl (fun id => rfl)
  · rcases hhas : mapHas s.pendingRequests rid with _ | _
    · rw [handleResponse_miss hrid hhas]
      exact inv_nosettle h rfl le_rfl (fun id => rfl)
    · have hmem : rid ∈ s.pendingRequests := (contains_iff_mem _ _).mp hhas
      by_cases hsucc : m.success = some false
      · rw [handleResponse_hit_err hrid hhas hsucc]
        exact inv_settle_one h hmem rfl rfl
          (fun id => settleCount_single_reject rid id _)
      · rw [handleResponse_hit_ok hrid hhas hsucc]
        exact inv_settle_one h hmem rfl rfl
          (fun id => settleCount_single_resolve rid id _)

lemma settleCount_cons (id : RequestId) (x : Effect) (l : List Effect) :
    settleCount id (x :: l)
      = settleCount id l + if isSettle id x then 1 else 0 :=
  List.countP_cons _ _ _

lemma scheduleReconnect_pending (s : ClientState) :
    (scheduleReconnect s).1.pendingRequests = s.pendingRequests := by
  unfold scheduleReconnect
  split <;> rfl

lemma scheduleReconnect_counter (s : ClientState) :
    (scheduleReconnect s).1.requestCounter = s.requestCounter := by
  unfold scheduleReconnect
  split <;> rfl

lemma scheduleReconnect_nosettle (s : ClientState) (id : RequestId) :
    settleCount id (scheduleReconnect s).2 = 0 := by
  unfold scheduleReconnect
  split <;> rfl

/-- Every step preserves the correlator invariant. -/
lemma step_inv {s : ClientState} {hist : List Effect} (h : Inv s hist)
    (e : Event) : Inv (step s e).1 (hist ++ (step s e).2) := by
  cases e with
  | callConnect =>
    simp only [step, connectStep]
    split
    · exact inv_nosettle h rfl le_rfl (fun id => rfl)
    · exact inv_nosettle h rfl le_rfl (fun id => rfl)
  | callDisconnect =>
    simp only [step, disconnect]
    refine inv_clear h rfl rfl ?_
    intro id
    dsimp only
    rw [settleCount_append, settleCount_rejectMap _ _ _ h.1]
    have hz : settleCount id
        (if s.ws.isSome then [Effect.wsCloseCall 1000 "Client disconnect"]
         else []) = 0 := by
      split <;> rfl
    rw [hz, Nat.zero_add]
  | callSendAction svc act payload now =>
    simp only [step, sendAction]
    split
    · exact inv_nosettle h rfl le_rfl (fun id => rfl)
    · exact inv_fresh h (mapSet_fresh h.2.1 now) rfl (fun id => rfl)
  | callSubscribe c =>
    simp only [step, subscribeToChannel]
    split
    · exact inv_nosettle h rfl le_rfl (fun id => rfl)
    · exact inv_nosettle h rfl le_rfl (fun id => rfl)
  | callUnsubscribe c =>
    simp only [step, unsubscribeFromChannel]
    split
    · exact inv_nosettle h rfl le_rfl (fun id => rfl)
    · exact inv_nosettle h rfl le_rfl (fun id => rfl)
  | callBroadcast c d =>
    simp only [step, broadcastOp]
    split
    · exact inv_nosettle h rfl le_rfl (fun id => rfl)
    · exact inv_nosettle h rfl le_rfl (fun id => rfl)
  | wsOpenEvt =>
    simp only [step, onOpen]
    split
    · split
      · refine inv_nosettle h rfl le_rfl ?_
        intro id
        simp only [resubscribeToChannels]
        rw [settleCount_append, settleCount_cons, settleCount_subs]
        rfl
      · exact inv_nosettle h rfl le_rfl (fun id => rfl)
    · exact inv_nosettle h rfl le_rfl (fun id => rfl)
  | wsCloseEvt code =>
    simp only [step, onClose]
    split
    · exact inv_nosettle h rfl le_rfl (fun id => rfl)
    · exact inv_nosettle h rfl le_rfl (fun id => rfl)
    · split
      · refine inv_nosettle h ?_ ?_ ?_
        · dsimp only
          exact scheduleReconnect_pending _
        · dsimp only
          rw [scheduleReconnect_counter]
        · intro id
          dsimp only
          rw [settleCount_cons, scheduleReconnect_nosettle]
          rfl
      · exact inv_nosettle h rfl le_rfl (fun id => rfl)
  | wsErrorEvt msg =>
    simp only [step, onError]
    split
    · exact inv_nosettle h rfl le_rfl (fun id => rfl)
    · split
      · refine inv_nosettle h ?_ ?_ ?_
        · dsimp only
          exact scheduleReconnect_pending _
        · dsimp only
          rw [scheduleReconnect_counter]
        · intro id
          dsimp only
          rw [settleCount_append, settleCount_append,
            scheduleReconnect_nosettle]
          rfl
      · exact inv_nosettle h rfl le_rfl (fun id => rfl)
  | recvMessage p =>
    cases p with
    | none =>
      simp only [step, handleMessage]
      exact inv_nosettle h rfl le_rfl (fun id => rfl)
    | some m =>
      simp only [step, handleMessage, handleChannelMessage]
      split
      · exact inv_handleResponse h m
      · split
        · exact inv_nosettle h rfl le_rfl (fun id => rfl)
        · split
          · exact inv_nosettle h rfl le_rfl (fun id => rfl)
          · split
            · split
              · exact inv_handleResponse h m
              · exact inv_nosettle h rfl le_rfl (fun id => rfl)
            · exact inv_nosettle h rfl le_rfl (fun id => rfl)
  | requestTimer id =>
    simp only [step, requestTimerFire]
    split
    · rename_i hhas
      exact inv_settle_one h ((contains_iff_mem _ _).mp hhas) rfl rfl
        (fun i => settleCount_single_reject id i _)
    · exact inv_nosettle h rfl le_rfl (fun i => rfl)
  | reconnectTimer =>
    simp only [step, reconnectTimerFire]
    split
    · split
      · simp only [connectStep]
        split
        · exact inv_nosettle h rfl le_rfl (fun id => rfl)
        · exact inv_nosettle h rfl le_rfl (fun id => rfl)
      · exact inv_nosettle h rfl le_rfl (fun id => rfl)
    · exact inv_nosettle h rfl le_rfl (fun id => rfl)

/-- The invariant holds in the fresh client with an empty history. -/
lemma init_inv (opts : WebSocketClientOptions) : Inv (initState opts) [] := by
  refine ⟨List.nodup_nil, ?_, ?_, ?_, ?_⟩
  · intro id hm
    exact absurd hm (List.not_mem_nil id)
  · intro id hm
    exact absurd hm (List.not_mem_nil id)
  · intro id
    exact Nat.zero_le 1
  · intro id hh
    exact absurd hh (by simp [settleCount])

lemma run_inv_aux :
    ∀ (evs : List Event) (s : ClientState) (hist : List Effect),
      Inv s hist → Inv (run s evs).1 (hist ++ (run s evs).2)
  | [], s, hist, h => by simpa [run] using h
  | e :: evs, s, hist, h => by
    have h2 := run_inv_aux evs (step s e).1 (hist ++ (step s e).2)
      (step_inv h e)
    simpa [run, List.append_assoc] using h2

/-- The correlator invariant holds along every run from the fresh client. -/
lemma run_inv (opts : WebSocketClientOptions) (evs : List Event) :
    Inv (run (initState opts) evs).1 (run (initState opts) evs).2 := by
  simpa using run_inv_aux evs (initState opts) [] (init_inv opts)

lemma scheduleReconnect_subs (s : ClientState) :
    (scheduleReconnect s).1.subscribedChannels = s.subscribedChannels := by
  unfold scheduleReconnect
  split <;> rfl

lemma connectStep_subs (s : ClientState) (b : Bool) :
    (connectStep s b).1.subscribedChannels = s.subscribedChannels := by
  unfold connectStep
  split <;> rfl

lemma sendAction_subs (s : ClientState) (svc act : String) (p : JVal)
    (now : Nat) :
    (sendAction s svc act p now).1.subscribedChannels
      = s.subscribedChannels := by
  unfold sendAction
  split <;> rfl

lemma broadcastOp_subs (s : ClientState) (c : String) (d : JVal) :
    (broadcastOp s c d).1.subscribedChannels = s.subscribedChannels := by
  unfold broadcastOp
  split <;> rfl

lemma onOpen_subs (s : ClientState) :
    (onOpen s).1.subscribedChannels = s.subscribedChannels := by
  unfold onOpen
  split
  · dsimp only
    split <;> rfl
  · rfl

lemma onClose_subs (s : ClientState) (code : Nat) :
    (onClose s code).1.subscribedChannels = s.subscribedChannels := by
  unfold onClose
  split
  · rfl
  · rfl
  · dsimp only
    split
    · dsimp only
      rw [scheduleReconnect_subs]
    · rfl

lemma onError_subs (s : ClientState) (msg : String) :
    (onError s msg).1.subscribedChannels = s.subscribedChannels := by
  unfold onError
  split
  · rfl
  · dsimp only
    split
    · dsimp only
      rw [scheduleReconnect_subs]
    · rfl

lemma requestTimerFire_subs (s : ClientState) (id : RequestId) :
    (requestTimerFire s id).1.subscribedChannels = s.subscribedChannels := by
  unfold requestTimerFire
  split <;> rfl

lemma reconnectTimerFire_subs (s : ClientState) :
    (reconnectTimerFire s).1.subscribedChannels = s.subscribedChannels := by
  unfold reconnectTimerFire
  split
  · dsimp only
    split
    · rw [connectStep_subs]
    · rfl
  · rfl

lemma handleResponse_subs (s : ClientState) (m : InMessage) :
    (handleResponse s m).1.subscribedChannels = s.subscribedChannels := by
  unfold handleResponse
  split
  · rfl
  · split
    · split <;> rfl
    · rfl

lemma handleMessage_subs (s : ClientState) (p : Option InMessage) :
    (handleMessage s p).1.subscribedChannels = s.subscribedChannels := by
  cases p with
  | none => rfl
  | some m =>
    simp only [handleMessage, handleChannelMessage]
    split
    · exact handleResponse_subs s m
    · split
      · rfl
      · split
        · rfl
        · split
          · split
            · exact handleResponse_subs s m
            · rfl
          · rfl

/-- Every step preserves duplicate-freeness of the desired-active set. -/
lemma step_subsNodup {s : ClientState} (h : s.subscribedChannels.Nodup)
    (e : Event) : ((step s e).1.subscribedChannels).Nodup := by
  cases e with
  | callConnect => rw [step, connectStep_subs]; exact h
  | callDisconnect => exact h
  | callSendAction svc act p now => rw [step, sendAction_subs]; exact h
  | callSubscribe c =>
    simp only [step, subscribeToChannel]
    split
    · exact h
    · simp only [setAdd]
      split
      · exact h
      · rename_i hcon
        rw [List.nodup_append]
        refine ⟨h, List.nodup_singleton _, ?_⟩
        intro a ha hb
        rw [List.mem_singleton] at hb
        subst hb
        exact hcon (List.elem_iff.mpr ha)
  | callUnsubscribe c =>
    simp only [step, unsubscribeFromChannel]
    split
    · exact h.erase c
    · exact h.erase c
  | callBroadcast c d => rw [step, broadcastOp_subs]; exact h
  | wsOpenEvt => rw [step, onOpen_subs]; exact h
  | wsCloseEvt code => rw [step, onClose_subs]; exact h
  | wsErrorEvt msg => rw [step, onError_subs]; exact h
  | recvMessage p => rw [step, handleMessage_subs]; exact h
  | requestTimer id => rw [step, requestTimerFire_subs]; exact h
  | reconnectTimer => rw [step, reconnectTimerFire_subs]; exact h

lemma run_subsNodup_aux :
    ∀ (evs : List Event) (s : ClientState), s.subscribedChannels.Nodup →
      ((run s evs).1.subscribedChannels).Nodup
  | [], _, h => h
  | e :: evs, s, h =>
    run_subsNodup_aux evs (step s e).1 (step_subsNodup h e)

/-- The desired-active set is duplicate-free in every reachable state. -/
lemma run_subsNodup (opts : WebSocketClientOptions) (evs : List Event) :
    ((run (initState opts) evs).1.subscribedChannels).Nodup :=
  run_subsNodup_aux evs (initState opts) List.nodup_nil

/-- No step other than an unsubscribe call for that channel removes a
channel from the desired-active set. -/
lemma step_subs_mem {s : ClientState} {c : String}
    (hm : c ∈ s.subscribedChannels) (e : Event)
    (hne : e ≠ Event.callUnsubscribe c) :
    c ∈ (step s e).1.subscribedChannels := by
  cases e with
  | callConnect => rw [step, connectStep_subs]; exact hm
  | callDisconnect => exact hm
  | callSendAction svc act p now => rw [step, sendAction_subs]; exact hm
  | callSubscribe c' =>
    simp only [step, subscribeToChannel]
    split
    · exact hm
    · simp only [setAdd]
      split
      · exact hm
      · exact List.mem_append_left _ hm
  | callUnsubscribe c' =>
    have hcc : c ≠ c' := fun hh => hne (by rw [hh])
    simp only [step, unsubscribeFromChannel]
    split
    · exact (List.mem_erase_of_ne hcc).mpr hm
    · exact (List.mem_erase_of_ne hcc).mpr hm
  | callBroadcast c' d => rw [step, broadcastOp_subs]; exact hm
  | wsOpenEvt => rw [step, onOpen_subs]; exact hm
  | wsCloseEvt code => rw [step, onClose_subs]; exact hm
  | wsErrorEvt msg => rw [step, onError_subs]; exact hm
  | recvMessage p => rw [step, handleMessage_subs]; exact hm
  | requestTimer id => rw [step, requestTimerFire_subs]; exact hm
  | reconnectTimer => rw [step, reconnectTimerFire_subs]; exact hm

/-- A settlement can only be produced by a response delivery, the firing of
that request deadline timer, or an explicit disconnect. -/
lemma settles_only {s : ClientState} {e : Event} {id : RequestId}
    (hset : 1 ≤ settleCount id (step s e).2) :
    (∃ p, e = Event.recvMessage p) ∨ e = Event.requestTimer id
      ∨ e = Event.callDisconnect := by
  cases e with
  | recvMessage p => exact Or.inl ⟨p, rfl⟩
  | callDisconnect => exact Or.inr (Or.inr rfl)
  | requestTimer id' =>
    refine Or.inr (Or.inl ?_)
    simp only [step, requestTimerFire] at hset
    split at hset
    · rw [settleCount_single_reject] at hset
      split at hset
      · rename_i hii
        rw [hii]
      · omega
    · simp [settleCount] at hset
  | callConnect =>
    exfalso
    simp only [step, connectStep] at hset
    split at hset <;> simp [settleCount, isSettle] at hset
  | callSendAction svc act p now =>
    exfalso
    simp only [step, sendAction] at hset
    split at hset <;> simp [settleCount, isSettle] at hset
  | callSubscribe c =>
    exfalso
    simp only [step, subscribeToChannel] at hset
    split at hset <;> simp [settleCount, isSettle] at hset
  | callUnsubscribe c =>
    exfalso
    simp only [step, unsubscribeFromChannel] at hset
    split at hset <;> simp [settleCount, isSettle] at hset
  | callBroadcast c d =>
    exfalso
    simp only [step, broadcastOp] at hset
    split at hset <;> simp [settleCount, isSettle] at hset
  | wsOpenEvt =>
    exfalso
    simp only [step, onOpen] at hset
    split at hset
    · split at hset
      · rw [settleCount_append, settleCount_cons] at hset
        simp only [resubscribeToChannels] at hset
        rw [settleCount_subs] at hset
        simp [settleCount, isSettle] at hset
      · simp [settleCount, isSettle] at hset
    · simp [settleCount] at hset
  | wsCloseEvt code =>
    exfalso
    simp only [step, onClose] at hset
    split at hset
    · simp [settleCount] at hset
    · simp [settleCount] at hset
    · split at hset
      · dsimp only at hset
        rw [settleCount_cons, scheduleReconnect_nosettle] at hset
        simp [isSettle] at hset
      · simp [settleCount, isSettle] at hset
  | wsErrorEvt msg =>
    exfalso
    simp only [step, onError] at hset
    split at hset
    · simp [settleCount] at hset
    · split at hset
      · dsimp only at hset
        rw [settleCount_append, settleCount_append,
          scheduleReconnect_nosettle] at hset
        simp [settleCount, isSettle] at hset
      · simp [settleCount, isSettle] at hset
  | reconnectTimer =>
    exfalso
    simp only [step, reconnectTimerFire] at hset
    split at hset
    · split at hset
      · simp only [connectStep] at hset
        split at hset <;> simp [settleCount, isSettle] at hset
      · simp [settleCount] at hset
    · simp [settleCount] at hset

/-- One subscribe frame per channel maps back to exactly the channel
list. -/
lemma filterMap_subChan (l : List String) :
    (l.map (fun c => Effect.sendFrame (.subscribe c))).filterMap
      subChanOfEffect = l := by
  induction l with
  | nil => rfl
  | cons a t ih => simp [List.filterMap_cons, subChanOfEffect, ih]

/-- The subscribe frames among the effects of a reconnecting open are
exactly the channel list. -/
lemma filterMap_openEffs (l : List String) :
    ((Effect.emitConnect
        :: l.map (fun c => Effect.sendFrame (.subscribe c)))
      ++ [Effect.connectResolved]).filterMap subChanOfEffect = l := by
  induction l with
  | nil => rfl
  | cons a t ih => simpa [List.filterMap_cons, subChanOfEffect] using ih

/-- Options used by the concrete traces: only the url is given. -/
def optsD : WebSocketClientOptions := { url := "u" }

/-- Options capping automatic reconnection at one attempt. -/
def optsMax1 : WebSocketClientOptions :=
  { url := "u", maxReconnectAttempts := some 1 }

/-- Connect, open, send one action: afterwards id (7,1) is pending. -/
def evsPend : List Event :=
  [.callConnect, .wsOpenEvt, .callSendAction "svc" "a" .jnull 7]

/-- The reached state with the single pending request id (7,1). -/
def sPend : ClientState := (run (initState optsD) evsPend).1

/-- C1: along every run of the client, the correlation ids in the pending
map are pairwise distinct; a freshly generated id is never an id that is
still pending (no reuse while pending); every id is settled (resolved or
rejected) at most once over the whole history; and a settlement can only be
produced by a matching response delivery, the firing of its own
deadline timer, or a disconnect teardown - whichever happens first, the
others then being no-ops. -/
theorem C1_pending_unique_settle_once :
    (∀ (opts : WebSocketClientOptions) (evs : List Event),
        ((run (initState opts) evs).1.pendingRequests).Nodup)
  ∧ (∀ (opts : WebSocketClientOptions) (evs : List Event) (now : Nat),
        (now, (run (initState opts) evs).1.requestCounter + 1)
          ∉ (run (initState opts) evs).1.pendingRequests)
  ∧ (∀ (opts : WebSocketClientOptions) (evs : List Event) (id : RequestId),
        settleCount id (run (initState opts) evs).2 ≤ 1)
  ∧ (∀ (s : ClientState) (e : Event) (id : RequestId),
        1 ≤ settleCount id (step s e).2 →
          (∃ p, e = Event.recvMessage p) ∨ e = Event.requestTimer id
            ∨ e = Event.callDisconnect) := by
  refine ⟨?_, ?_, ?_, ?_⟩
  · intro opts evs
    exact (run_inv opts evs).1
  · intro opts evs now hmem
    have hb := (run_inv opts evs).2.1 _ hmem
    simp only at hb
    omega
  · intro opts evs id
    exact (run_inv opts evs).2.2.2.1 id
  · intro s e id hset
    exact settles_only hset

/-- C1 witness: the trace with one pending request, and the disconnect step
on it, instantiate every part of the theorem. -/
theorem C1_pending_unique_settle_once_witness :
    ((run (initState optsD) evsPend).1.pendingRequests).Nodup
    ∧ ((7, (run (initState optsD) evsPend).1.requestCounter + 1)
        ∉ (run (initState optsD) evsPend).1.pendingRequests)
    ∧ settleCount (7, 1) (run (initState optsD) evsPend).2 ≤ 1
    ∧ ((∃ p, Event.callDisconnect = Event.recvMessage p)
        ∨ Event.callDisconnect = Event.requestTimer ((7, 1) : RequestId)
        ∨ Event.callDisconnect = Event.callDisconnect) :=
  ⟨C1_pending_unique_settle_once.1 optsD evsPend,
   C1_pending_unique_settle_once.2.1 optsD evsPend 7,
   C1_pending_unique_settle_once.2.2.1 optsD evsPend (7, 1),
   C1_pending_unique_settle_once.2.2.2 sPend Event.callDisconnect (7, 1)
     (by decide)⟩

/-- Trace for the C2 counterexample: one pending request, abnormal close,
reconnect attempt fails, cap of one attempt reached. -/
def evsC2 : List Event :=
  [.callConnect, .wsOpenEvt, .callSendAction "svc" "ping" .jnull 3,
   .wsCloseEvt 1006, .reconnectTimer, .wsErrorEvt "refused"]

/-- C2 counterexample: after an abnormal close whose reconnect attempts
exceed the configured maximum (the terminal "Max reconnection attempts
exceeded" error is emitted in this run), the request that was pending is
still pending and was never rejected at all: the pending map is not empty
afterwards, contradicting the claim. -/
theorem C2_counterexample :
    (run (initState optsMax1) evsC2).1.pendingRequests = [(3, 1)]
    ∧ settleCount (3, 1) (run (initState optsMax1) evsC2).2 = 0
    ∧ Effect.emitError (.connection "Max reconnection attempts exceeded")
        ∈ (run (initState optsMax1) evsC2).2 := by
  refine ⟨rfl, rfl, ?_⟩
  decide

/-- C2 amended: an explicit disconnect() rejects every currently pending
request with a ConnectionError and leaves the pending map empty; but an
abnormal close that exceeds the maximum reconnect attempts only emits a
terminal ConnectionError event and leaves the pending map untouched, so
those requests are left to settle later via their own timeouts or an
explicit disconnect. -/
theorem C2_disconnect_rejects_all :
    (∀ s : ClientState,
        (disconnect s).1.pendingRequests = []
        ∧ ∀ id ∈ s.pendingRequests,
            Effect.rejectReq id (.connection "Connection closed")
              ∈ (disconnect s).2)
  ∧ (∀ (s : ClientState) (code : Nat), s.ws = some .opened →
        s.options.maxAttempts ≤ s.reconnectAttempts → code ≠ 1000 →
        s.isReconnecting = false →
        (step s (.wsCloseEvt code)).1.pendingRequests = s.pendingRequests
        ∧ (step s (.wsCloseEvt code)).2
            = [Effect.emitDisconnect code,
               Effect.emitError
                 (.connection "Max reconnection attempts exceeded")]) := by
  constructor
  · intro s
    refine ⟨rfl, ?_⟩
    intro id hid
    simp only [disconnect]
    refine List.mem_append_right _ ?_
    exact List.mem_map_of_mem _ hid
  · intro s code hws hmax hcode hre
    have hstep : step s (.wsCloseEvt code)
        = ({ s with ws := some .closed, isConnecting := false },
           [Effect.emitDisconnect code,
            Effect.emitError
              (.connection "Max reconnection attempts exceeded")]) := by
      simp only [step, onClose]
      rw [hws]
      dsimp only
      rw [if_pos (by simp [hre, hcode])]
      simp only [scheduleReconnect]
      rw [if_pos hmax]
    rw [hstep]
    exact ⟨rfl, rfl⟩

/-- A concrete state with one pending request and the attempt cap
reached. -/
def sW2 : ClientState :=
  { options := optsMax1, ws := some .opened, reconnectAttempts := 1,
    isConnecting := false, isReconnecting := false,
    pendingRequests := [(3, 1)], requestCounter := 1,
    subscribedChannels := [], reconnectTimerSet := false,
    reconnectCatchArmed := false }

/-- C2 witness: both halves of the amended statement at a concrete
state. -/
theorem C2_disconnect_rejects_all_witness :
    Effect.rejectReq (3, 1) (.connection "Connection closed")
        ∈ (disconnect sW2).2
    ∧ (step sW2 (.wsCloseEvt 1006)).1.pendingRequests
        = sW2.pendingRequests :=
  ⟨(C2_disconnect_rejects_all.1 sW2).2 (3, 1) (by decide),
   (C2_disconnect_rejects_all.2 sW2 1006 rfl (by decide) (by decide)
     rfl).1⟩

/-- C3: after any sequence of events (in particular any sequence of
subscribe and unsubscribe calls), if the connection opens while the
reconnecting flag is set, the subscribe frames retransmitted by the open
handler list exactly the desired-active set at that moment - one frame per
channel, with no duplicates. -/
theorem C3_resubscribe_exact (opts : WebSocketClientOptions)
    (evs : List Event)
    (hre : (run (initState opts) evs).1.isReconnecting = true)
    (hws : (run (initState opts) evs).1.ws = some .connecting) :
    ((step (run (initState opts) evs).1 .wsOpenEvt).2.filterMap
        subChanOfEffect = (run (initState opts) evs).1.subscribedChannels)
    ∧ ((step (run (initState opts) evs).1 .wsOpenEvt).2.filterMap
        subChanOfEffect).Nodup := by
  have hnd := run_subsNodup opts evs
  have heff : (step (run (initState opts) evs).1 .wsOpenEvt).2
      = (Effect.emitConnect
          :: ((run (initState opts) evs).1.subscribedChannels).map
              (fun c => Effect.sendFrame (.subscribe c)))
        ++ [Effect.connectResolved] := by
    simp only [step, onOpen]
    rw [hws]
    dsimp only
    rw [if_pos hre]
    simp only [resubscribeToChannels]
  rw [heff, filterMap_openEffs]
  exact ⟨rfl, hnd⟩

/-- Trace reaching a reconnecting, connecting state with desired set
{alerts}. -/
def evsC3 : List Event :=
  [.callConnect, .wsOpenEvt, .callSubscribe "alerts", .wsCloseEvt 1006,
   .reconnectTimer]

/-- C3 witness: on the concrete reconnect trace the retransmitted channels
are exactly the desired-active set, namely [alerts]. -/
theorem C3_resubscribe_exact_witness :
    ((step (run (initState optsD) evsC3).1 .wsOpenEvt).2.filterMap
        subChanOfEffect = (run (initState optsD) evsC3).1.subscribedChannels)
    ∧ (run (initState optsD) evsC3).1.subscribedChannels = ["alerts"] :=
  ⟨(C3_resubscribe_exact optsD evsC3 rfl rfl).1, rfl⟩

/-- A frame carrying both a pending correlation id and a truthy channel and
data pair. -/
def msgC4 : InMessage :=
  { type := none, channel := some "alerts", data := some (.jstr "d"),
    request_id := some (7, 1), success := none, error := none }

/-- C4 counterexample: a frame whose correlation id (7,1) matches a pending
request but which also carries a truthy channel and data is routed to the
channel handlers, not to the correlator: the state (and so the pending map)
is unchanged and the only effect is the channel emission - no settlement -
contradicting the claimed correlator-first classification order. -/
theorem C4_counterexample :
    (7, 1) ∈ sPend.pendingRequests
    ∧ step sPend (.recvMessage (some msgC4))
        = (sPend, [Effect.emitChannel (some "alerts")
            (some (.jstr "d"))]) := by
  exact ⟨by decide, rfl⟩

/-- C4 amended: the router classifies in this order: (1) a frame with type
tag "response" goes to the correlator; (2) a frame with type tag
"channel_message" is emitted to the handlers of that channel; (3) otherwise a
frame with truthy channel and data fields is emitted to that channel's
handlers, even when its correlation id matches a pending request; (4)
otherwise a frame whose correlation id matches a pending request goes to
the correlator; (5) otherwise a generic message event is emitted. -/
theorem C4_router_order :
    (∀ (s : ClientState) (m : InMessage), m.type = some "response" →
        step s (.recvMessage (some m)) = handleResponse s m)
  ∧ (∀ (s : ClientState) (m : InMessage), m.type ≠ some "response" →
        m.type = some "channel_message" →
        step s (.recvMessage (some m))
          = (s, [Effect.emitChannel m.channel m.data]))
  ∧ (∀ (s : ClientState) (m : InMessage), m.type ≠ some "response" →
        m.type ≠ some "channel_message" →
        (truthyStr m.channel && truthyVal m.data) = true →
        step s (.recvMessage (some m))
          = (s, [Effect.emitChannel m.channel m.data]))
  ∧ (∀ (s : ClientState) (m : InMessage) (rid : RequestId),
        m.type ≠ some "response" → m.type ≠ some "channel_message" →
        (truthyStr m.channel && truthyVal m.data) = false →
        m.request_id = some rid → mapHas s.pendingRequests rid = true →
        step s (.recvMessage (some m)) = handleResponse s m)
  ∧ (∀ (s : ClientState) (m : InMessage),
        m.type ≠ some "response" → m.type ≠ some "channel_message" →
        (truthyStr m.channel && truthyVal m.data) = false →
        (∀ rid, m.request_id = some rid →
          mapHas s.pendingRequests rid = false) →
        step s (.recvMessage (some m)) = (s, [Effect.emitMessage m])) := by
  refine ⟨?_, ?_, ?_, ?_, ?_⟩
  · intro s m h1
    simp only [step, handleMessage]
    rw [if_pos h1]
  · intro s m h1 h2
    simp only [step, handleMessage, handleChannelMessage]
    rw [if_neg h1, if_pos h2]
  · intro s m h1 h2 h3
    simp only [step, handleMessage]
    rw [if_neg h1, if_neg h2, if_pos h3]
  · intro s m rid h1 h2 h3 hrid hhas
    simp only [step, handleMessage]
    rw [if_neg h1, if_neg h2, if_neg (by simp [h3]), hrid]
    dsimp only
    rw [if_pos hhas]
  · intro s m h1 h2 h3 h4
    simp only [step, handleMessage]
    rw [if_neg h1, if_neg h2, if_neg (by simp [h3])]
    rcases hr : m.request_id with _ | rid
    · rfl
    · dsimp only
      rw [if_neg (by simp [h4 rid hr])]

/-- C4 witness: the channel-over-correlator branch at a concrete pending
state and frame. -/
theorem C4_router_order_witness :
    step sPend (.recvMessage (some msgC4))
      = (sPend, [Effect.emitChannel msgC4.channel msgC4.data]) :=
  C4_router_order.2.2.1 sPend msgC4 (by decide) (by decide) (by decide)

/-- C5: while a request id is still pending, its deadline timer firing
removes it from the pending map and rejects the caller future with a
DaebusTimeoutError; a response frame carrying that id after the removal is
dropped silently - the state (in particular the pending map) is unchanged
and no effect at all is produced, so no future resolves. -/
theorem C5_timeout_then_silent_drop :
    (∀ (s : ClientState) (id : RequestId),
        mapHas s.pendingRequests id = true →
        step s (.requestTimer id)
          = ({ s with pendingRequests := mapDelete s.pendingRequests id },
             [Effect.rejectReq id (.timeout "Action timed out")]))
  ∧ (∀ (s : ClientState) (m : InMessage) (id : RequestId),
        m.type = some "response" → m.request_id = some id →
        mapHas s.pendingRequests id = false →
        step s (.recvMessage (some m)) = (s, [])) := by
  constructor
  · intro s id hh
    simp only [step, requestTimerFire]
    rw [if_pos hh]
  · intro s m id hty hrid hmiss
    simp only [step, handleMessage]
    rw [if_pos hty]
    exact handleResponse_miss hrid hmiss

/-- A response frame for id (7,1) arriving late. -/
def msgLate : InMessage :=
  { type := some "response", channel := none, data := some (.jstr "x"),
    request_id := some (7, 1), success := none, error := none }

/-- C5 witness: the timer fires on the pending id, removing and rejecting
it; the late response to the same id is then a strict no-op. -/
theorem C5_timeout_then_silent_drop_witness :
    step sPend (.requestTimer (7, 1))
      = ({ sPend with
            pendingRequests := mapDelete sPend.pendingRequests (7, 1) },
         [Effect.rejectReq (7, 1) (.timeout "Action timed out")])
    ∧ step (step sPend (.requestTimer (7, 1))).1 (.recvMessage (some msgLate))
        = ((step sPend (.requestTimer (7, 1))).1, []) :=
  ⟨C5_timeout_then_silent_drop.1 sPend (7, 1) (by decide),
   C5_timeout_then_silent_drop.2 (step sPend (.requestTimer (7, 1))).1
     msgLate (7, 1) rfl rfl (by decide)⟩

/-- C6: a response frame whose correlation id matches a pending request
removes the entry from the pending map and resolves the caller future
with the data payload of the frame - except when the success flag is literally
false, in which case it rejects with a protocol-level DaebusError carrying
the remote error text. -/
theorem C6_response_settles_matching (s : ClientState) (m : InMessage)
    (rid : RequestId) (hty : m.type = some "response")
    (hrid : m.request_id = some rid)
    (hhit : mapHas s.pendingRequests rid = true) :
    step s (.recvMessage (some m))
      = ({ s with pendingRequests := mapDelete s.pendingRequests rid },
         if m.success = some false then
           [Effect.rejectReq rid (.daebus (orUnknown m.error))]
         else [Effect.resolveReq rid m.data]) := by
  simp only [step, handleMessage]
  rw [if_pos hty]
  by_cases hs : m.success = some false
  · rw [handleResponse_hit_err hrid hhit hs, if_pos hs]
  · rw [handleResponse_hit_ok hrid hhit hs, if_neg hs]

/-- A successful response frame for the pending id. -/
def msgOk : InMessage :=
  { type := some "response", channel := none, data := some (.jobj 0),
    request_id := some (7, 1), success := some true, error := none }

/-- A failed response frame for the pending id. -/
def msgFail : InMessage :=
  { type := some "response", channel := none, data := none,
    request_id := some (7, 1), success := some false,
    error := some "boom" }

/-- C6 witness: the resolve and the reject branch at the concrete pending
state. -/
theorem C6_response_settles_matching_witness :
    step sPend (.recvMessage (some msgOk))
      = ({ sPend with
            pendingRequests := mapDelete sPend.pendingRequests (7, 1) },
         [Effect.resolveReq (7, 1) msgOk.data])
    ∧ step sPend (.recvMessage (some msgFail))
      = ({ sPend with
            pendingRequests := mapDelete sPend.pendingRequests (7, 1) },
         [Effect.rejectReq (7, 1) (.daebus "boom")]) :=
  ⟨C6_response_settles_matching sPend msgOk (7, 1) rfl rfl (by decide),
   C6_response_settles_matching sPend msgFail (7, 1) rfl rfl (by decide)⟩

/-- The state reached while the first connect attempt is in flight. -/
def sConn : ClientState := (run (initState optsD) [.callConnect]).1

/-- C7 counterexample: while a connect attempt is in flight (isConnecting),
a second connect() call returns an already-resolved future at once
(connectReturnedImmediately) and creates no second handle - yet the
in-flight attempt is still unsettled at that point and can later reject
(error event), so the future returned by the second call did not settle when, nor how,
the in-flight attempt settled, contradicting the claim. -/
theorem C7_counterexample :
    sConn.isConnecting = true
    ∧ step sConn .callConnect = (sConn, [Effect.connectReturnedImmediately])
    ∧ (step sConn (.wsErrorEvt "refused")).2
        = [Effect.emitError (.plainErr "refused"),
           Effect.connectRejected
             (.connection "WebSocket connection failed: refused")] :=
  ⟨rfl, rfl, rfl⟩

/-- C7 amended: connect() while already connecting or open is a no-op: the
state (in particular the transport handle) is unchanged, no handle is
created, and the call returns an immediately resolved future, independent
of how the in-flight attempt later settles. -/
theorem C7_connect_noop (s : ClientState)
    (h : s.isConnecting = true ∨ isConnected s = true) :
    step s .callConnect = (s, [Effect.connectReturnedImmediately]) := by
  simp only [step, connectStep]
  rw [if_pos (show (s.isConnecting || isConnected s) = true by
    rcases h with h | h <;> simp [h])]

/-- C7 witness: the no-op at the concrete in-flight state. -/
theorem C7_connect_noop_witness :
    step sConn .callConnect = (sConn, [Effect.connectReturnedImmediately]) :=
  C7_connect_noop sConn (Or.inl rfl)

/-- Trace: open, abnormal close (schedules a reconnect), then explicit
disconnect. -/
def evsC8 : List Event :=
  [.callConnect, .wsOpenEvt, .wsCloseEvt 1006, .callDisconnect]

/-- The state just after that disconnect. -/
def sAfterDisc : ClientState := (run (initState optsD) evsC8).1

/-- C8 counterexample: after an abnormal close schedules a reconnect and
the user then calls disconnect(), the client is fully disconnected (no
handle, no pending requests) - yet the reconnect timer is still armed and
its firing automatically opens a new transport handle without any manual
connect() call: disconnect() does not cancel the pending reconnect
timer. -/
theorem C8_counterexample :
    sAfterDisc.ws = none
    ∧ sAfterDisc.pendingRequests = []
    ∧ sAfterDisc.reconnectTimerSet = true
    ∧ (step sAfterDisc .reconnectTimer).2 = [Effect.createHandle "u"] :=
  ⟨rfl, rfl, rfl, rfl⟩

/-- C8 amended: disconnect() is idempotent and from every prior state
immediately drops the handle (closing it with the normal code 1000 when one
exists) and rejects all pending requests; but it leaves a pending reconnect
timer armed and the reconnecting flag set, so an automatic reconnect
scheduled before the call still fires after it. -/
theorem C8_disconnect_idempotent :
    (∀ s : ClientState, (disconnect s).1.ws = none)
  ∧ (∀ s : ClientState, (disconnect s).1.pendingRequests = [])
  ∧ (∀ s : ClientState,
        disconnect (disconnect s).1 = ((disconnect s).1, []))
  ∧ (∀ s : ClientState, s.ws.isSome = true →
        Effect.wsCloseCall 1000 "Client disconnect" ∈ (disconnect s).2)
  ∧ (∀ s : ClientState,
        (disconnect s).1.reconnectTimerSet = s.reconnectTimerSet
        ∧ (disconnect s).1.isReconnecting = s.isReconnecting) := by
  refine ⟨fun s => rfl, fun s => rfl, fun s => rfl, ?_, fun s => ⟨rfl, rfl⟩⟩
  intro s h
  simp only [disconnect]
  rw [if_pos h]
  exact List.mem_append_left _ (List.mem_singleton.mpr rfl)

/-- C8 witness: the close call is emitted at a concrete connected state. -/
theorem C8_disconnect_idempotent_witness :
    Effect.wsCloseCall 1000 "Client disconnect" ∈ (disconnect sW2).2 :=
  C8_disconnect_idempotent.2.2.2.1 sW2 rfl

/-- C9: a malformed inbound message (JSON.parse failure, caught) is
reported only as a diagnostic error event: the handler returns normally
with the state entirely unchanged - same connection fields, pending map and
subscription set - and emits exactly one DaebusError event. -/
theorem C9_parse_failure_harmless (s : ClientState) :
    step s (.recvMessage none)
      = (s, [Effect.emitError (.daebus "Failed to parse message")]) := rfl

/-- C10: disconnect() leaves the desired-active channel set unchanged, and
no step other than an unsubscribe call for that very channel ever removes a
channel from the set. -/
theorem C10_subscriptions_survive_disconnect :
    (∀ s : ClientState,
        (disconnect s).1.subscribedChannels = s.subscribedChannels)
  ∧ (∀ (s : ClientState) (e : Event) (c : String),
        c ∈ s.subscribedChannels → e ≠ Event.callUnsubscribe c →
        c ∈ (step s e).1.subscribedChannels) :=
  ⟨fun _ => rfl, fun _ e _ hm hne => step_subs_mem hm e hne⟩

/-- A reached state with desired-active set {alerts}. -/
def sSub : ClientState :=
  (run (initState optsD)
    [.callConnect, .wsOpenEvt, .callSubscribe "alerts"]).1

/-- C10 witness: the subscription survives a disconnect step at a concrete
state. -/
theorem C10_subscriptions_survive_disconnect_witness :
    "alerts" ∈ (step sSub .callDisconnect).1.subscribedChannels :=
  C10_subscriptions_survive_disconnect.2 sSub .callDisconnect "alerts"
    (by decide) (by decide)

end Daebus
